import Mathlib

/-!
Verification of the PygameUI widget core: a shallow embedding of
`pygameui/core/geometry.py` (the `Pack`, `Grid` and `Place` geometry
managers) and `pygameui/core/basewidget.py` (the `_Widget` base class),
together with theorems settling the behavioural claims about them.

Modelling conventions:
* Python ints are `ℤ`; Python floats that hold relative coordinates are `ℚ`
  (the code only compares them with `0.0` and `1.0` and stores them).
* A Python attribute initialised to `None` and later holding a value of
  type `τ` is `Option τ`.
* Python `//` (floor division) is `Int.fdiv`.
* `raise ValueError(...)` in a property setter is modelled by returning the
  unchanged state paired with `some (PyErr.valueError msg)`; a successful
  assignment returns the updated state paired with `none`.
* `pack`/`grid`/`place` all declare a `**kwargs` catch-all, so calling them
  with an unrecognized keyword binds the extra pair into `kwargs`; the
  bodies never read `kwargs` and never raise, which the `callPack`,
  `callGrid` and `callPlace` wrappers record by always returning `.ok`.
-/

set_option autoImplicit false

namespace PygameUI

/-- A Python value as stored in the widget configuration slots
(`_width`, `_height`, `_background`, `_foreground`, `_cursor`). -/
inductive PyVal where
  | vnone
  | vint (i : ℤ)
  | vstr (s : String)
  deriving DecidableEq, Repr

/-- A Python exception raised by the widget core (only `ValueError` occurs
in the modelled code). -/
inductive PyErr where
  | valueError (msg : String)
  deriving DecidableEq, Repr

/-- The `pygame.Rect` of a widget: position and size, all integers. -/
structure Rect where
  x : ℤ
  y : ℤ
  width : ℤ
  height : ℤ
  deriving DecidableEq, Repr

/-- The external `pygame.Rect.inflate(dx, dy)`: grow `dx`/`dy` around the
center (pygame shifts the corner by half the growth, C-truncated). -/
def Rect.inflate (r : Rect) (dx dy : ℤ) : Rect :=
  ⟨r.x - dx / 2, r.y - dy / 2, r.width + dx, r.height + dy⟩

/-- The state of a `_Widget` (basewidget.py) as far as the modelled
behaviour reads or writes it.  `_Widget` multiply inherits `Place`, `Grid`
and `Pack`, so the option attributes of all three managers live on the one
object; note that `_anchor` is shared by `Pack` and `Place`, and `_ipadx`,
`_ipady`, `_padx`, `_pady` are shared by `Pack` and `Grid`, exactly as the
identically named Python attributes are.  `masterW`/`masterH` are the
parent surface's `get_width()`/`get_height()`.  `className` is
`self.__class__.__name__` (the base class itself is `"_Widget"`). -/
structure Widget where
  rect : Rect
  masterW : ℤ
  masterH : ℤ
  -- Pack options (geometry.py `Pack.__init__`)
  fill : Option String
  side : Option String
  anchor : Option String
  ipadx : Option ℤ
  ipady : Option ℤ
  expand : Option Bool
  padx : Option ℤ
  pady : Option ℤ
  -- Grid options (geometry.py `Grid.__init__`)
  row : Option ℤ
  column : Option ℤ
  rowspan : Option ℤ
  columnspan : Option ℤ
  sticky : Option String
  -- Place options (geometry.py `Place.__init__`)
  x : ℤ
  y : ℤ
  relx : ℚ
  rely : ℚ
  inWidget : Option Unit
  relwidth : ℚ
  relheight : ℚ
  bordermode : Option String
  -- basewidget.py `_Widget.__init__` state
  state : String
  disabled : Bool
  focused : Bool
  visible : Bool
  dirty : Bool
  widthAttr : PyVal
  heightAttr : PyVal
  background : PyVal
  foreground : PyVal
  cursor : PyVal
  className : String
  deriving DecidableEq, Repr

/-- A freshly constructed widget (`_Widget.__init__` with a parent surface
of size `masterW × masterH` and the given requested size): the rect is the
surface's rect at `topleft=(0, 0)`, all manager options are the values set
by `Place.__init__`, `Grid.__init__` and `Pack.__init__`, and the state
flags take their documented initial values. -/
def initWidget (cls : String) (masterW masterH width height : ℤ) : Widget where
  rect := ⟨0, 0, width, height⟩
  masterW := masterW
  masterH := masterH
  fill := none
  side := none
  anchor := none
  ipadx := none
  ipady := none
  expand := none
  padx := none
  pady := none
  row := none
  column := none
  rowspan := none
  columnspan := none
  sticky := none
  x := 0
  y := 0
  relx := 0
  rely := 0
  inWidget := none
  relwidth := 0
  relheight := 0
  bordermode := none
  state := "normal"
  disabled := false
  focused := false
  visible := true
  dirty := true
  widthAttr := .vint width
  heightAttr := .vint height
  background := .vnone
  foreground := .vnone
  cursor := .vnone
  className := cls

/-- The parameters of `Pack.pack`, in source order
`(anchor, ipadx, ipady, after, before, expand, fill, side, padx, pady)`.
The Python defaults are `anchor=None, ipadx=0, ipady=0, after=None,
before=None, expand=0, fill=None, side=None, padx=0, pady=0`. -/
structure PackArgs where
  anchor : Option String
  ipadx : Option ℤ
  ipady : Option ℤ
  after : Option Unit
  before : Option Unit
  expand : Option Bool
  fill : Option String
  side : Option String
  padx : Option ℤ
  pady : Option ℤ
  deriving DecidableEq, Repr

/-- The default argument values of `Pack.pack` (`expand=0` is falsy). -/
def defaultPackArgs : PackArgs :=
  ⟨none, some 0, some 0, none, none, some false, none, none, some 0, some 0⟩

/-- The rect computed by the body of `Pack.pack` from the widget's stored
option attributes (`self._side`, `self._fill`, `self._expand`,
`self._ipadx`, `self._ipady`, `self._padx`, `self._pady`), assuming
`_side` has already been defaulted: positioning by side, then fill, then
expand, then the four padding inflations, each `+= 2 × pad`. -/
def packRect (w : Widget) : Rect :=
  let r := w.rect
  let r : Rect :=
    if w.side = some "top" then { r with y := 0 }
    else if w.side = some "bottom" then { r with y := w.masterH - r.height }
    else if w.side = some "left" then { r with x := 0 }
    else if w.side = some "right" then { r with x := w.masterW - r.width }
    else r
  let r : Rect :=
    if w.fill = some "x" then { r with width := w.masterW }
    else if w.fill = some "y" then { r with height := w.masterH }
    else if w.fill = some "both" then { r with width := w.masterW, height := w.masterH }
    else r
  let r : Rect :=
    if w.expand = some true then
      if w.side = some "top" ∨ w.side = some "bottom" then { r with width := w.masterW }
      else if w.side = some "left" ∨ w.side = some "right" then { r with height := w.masterH }
      else r
    else r
  let r : Rect := match w.ipadx with
    | some p => { r with width := r.width + p * 2 }
    | none => r
  let r : Rect := match w.ipady with
    | some p => { r with height := r.height + p * 2 }
    | none => r
  let r : Rect := match w.padx with
    | some p => { r with width := r.width + p * 2 }
    | none => r
  let r : Rect := match w.pady with
    | some p => { r with height := r.height + p * 2 }
    | none => r
  r

/-- `Pack.pack(self, anchor=None, ipadx=0, ipady=0, after=None,
before=None, expand=0, fill=None, side=None, padx=0, pady=0, **kwargs)`.
The body never reads any of its parameters (neither `args` nor `kwargs`):
it only defaults `self._side` to `"top"` when it is `None` and then
recomputes the rect from the *stored* option attributes.  The unused
binders mirror that. -/
def pack (w : Widget) (args : PackArgs) (kwargs : List (String × PyVal)) : Widget :=
  let _ := args
  let _ := kwargs
  let w1 := if w.side = none then { w with side := some "top" } else w
  { w1 with rect := packRect w1 }

/-- The rect computed by the body of `Grid.grid` after the options have
been stored: `cell_width = masterW // gridCols`,
`cell_height = masterH // gridRows` (Python floor division), position and
size from row/column/spans when not `None`, then the four padding
inflations. -/
def gridRect (w : Widget) (gridRows gridCols : ℤ) : Rect :=
  let cellW := Int.fdiv w.masterW gridCols
  let cellH := Int.fdiv w.masterH gridRows
  let r := w.rect
  let r : Rect := match w.column with
    | some c => { r with x := c * cellW }
    | none => r
  let r : Rect := match w.row with
    | some rw => { r with y := rw * cellH }
    | none => r
  let r : Rect := match w.rowspan with
    | some rs => { r with height := cellH * rs }
    | none => r
  let r : Rect := match w.columnspan with
    | some cs => { r with width := cellW * cs }
    | none => r
  let r : Rect := match w.ipadx with
    | some p => { r with width := r.width + p * 2 }
    | none => r
  let r : Rect := match w.ipady with
    | some p => { r with height := r.height + p * 2 }
    | none => r
  let r : Rect := match w.padx with
    | some p => { r with width := r.width + p * 2 }
    | none => r
  let r : Rect := match w.pady with
    | some p => { r with height := r.height + p * 2 }
    | none => r
  r

/-- `Grid.grid(self, row=0, column=0, rowspan=1, columnspan=1, ipadx=0,
ipady=0, sticky=None, padx=0, pady=0, **kwargs)`.  It writes every
argument straight into the underscore attribute (`self._row = row`, ...),
bypassing the validating property setters, and then computes the rect.
`gridRows`/`gridCols` are the shared class attributes `Grid.num_rows` and
`Grid.num_columns` (default 3×3) at call time.  `kwargs` is never read. -/
def grid (w : Widget) (gridRows gridCols : ℤ) (row column rowspan columnspan : Option ℤ)
    (ipadx ipady : Option ℤ) (sticky : Option String) (padx pady : Option ℤ)
    (kwargs : List (String × PyVal)) : Widget :=
  let _ := kwargs
  let w1 := { w with
    row := row
    padx := padx
    pady := pady
    ipadx := ipadx
    ipady := ipady
    sticky := sticky
    column := column
    rowspan := rowspan
    columnspan := columnspan }
  { w1 with rect := gridRect w1 gridRows gridCols }

/-- `Place.place(self, x=0, y=0, anchor=None, relx=0, rely=0, in_=None,
relwidth=0, relheight=0, width=None, height=None, bordermode=None,
**kwargs)`.  It writes the arguments straight into the underscore
attributes (bypassing the validating property setters) and then sets only
`rect.x = self._x` and `rect.y = self._y`: the assignments scaling
`relx`/`rely`/`relwidth`/`relheight` against the parent size, and the
ones applying `width`/`height`, are commented out in the source.  The
line `self._in_: in_` is a bare annotation, so `_in_` is not assigned.
`kwargs` is never read. -/
def place (w : Widget) (x y : ℤ) (anchor : Option String) (relx rely : ℚ)
    (in_ : Option Unit) (relwidth relheight : ℚ) (width height : Option ℤ)
    (bordermode : Option String) (kwargs : List (String × PyVal)) : Widget :=
  let _ := in_
  let _ := width
  let _ := height
  let _ := kwargs
  let w1 := { w with
    x := x
    y := y
    anchor := anchor
    relx := relx
    rely := rely
    relwidth := relwidth
    relheight := relheight
    bordermode := bordermode }
  { w1 with rect := { w1.rect with x := w1.x, y := w1.y } }

/-- Calling `widget.pack(...)` with possibly-unrecognized keyword options:
the signature ends in `**kwargs`, so Python binds every unknown key into
the `kwargs` dict instead of raising `TypeError`, and the body raises
nothing, so the call always succeeds. -/
def callPack (w : Widget) (args : PackArgs) (kwargs : List (String × PyVal)) :
    Except PyErr Widget :=
  .ok (pack w args kwargs)

/-- Calling `widget.grid(...)`: as with `pack`, the `**kwargs` catch-all
absorbs unknown keywords and the body raises nothing. -/
def callGrid (w : Widget) (gridRows gridCols : ℤ) (row column rowspan columnspan : Option ℤ)
    (ipadx ipady : Option ℤ) (sticky : Option String) (padx pady : Option ℤ)
    (kwargs : List (String × PyVal)) : Except PyErr Widget :=
  .ok (grid w gridRows gridCols row column rowspan columnspan ipadx ipady sticky padx pady kwargs)

/-- Calling `widget.place(...)`: as with `pack`, the `**kwargs` catch-all
absorbs unknown keywords and the body raises nothing. -/
def callPlace (w : Widget) (x y : ℤ) (anchor : Option String) (relx rely : ℚ)
    (in_ : Option Unit) (relwidth relheight : ℚ) (width height : Option ℤ)
    (bordermode : Option String) (kwargs : List (String × PyVal)) : Except PyErr Widget :=
  .ok (place w x y anchor relx rely in_ relwidth relheight width height bordermode kwargs)

/-- The `Place.relx` property setter: raises
`ValueError("relx must be between 0.0 and 1.0")` unless `0.0 <= v <= 1.0`,
otherwise stores the value.  On a raise the attribute is unchanged. -/
def relxSet (w : Widget) (v : ℚ) : Widget × Option PyErr :=
  if 0 ≤ v ∧ v ≤ 1 then ({ w with relx := v }, none)
  else (w, some (.valueError "relx must be between 0.0 and 1.0"))

/-- The `Place.rely` property setter (same validation as `relx`). -/
def relySet (w : Widget) (v : ℚ) : Widget × Option PyErr :=
  if 0 ≤ v ∧ v ≤ 1 then ({ w with rely := v }, none)
  else (w, some (.valueError "rely must be between 0.0 and 1.0"))

/-- The `Place.relwidth` property setter (same validation as `relx`). -/
def relwidthSet (w : Widget) (v : ℚ) : Widget × Option PyErr :=
  if 0 ≤ v ∧ v ≤ 1 then ({ w with relwidth := v }, none)
  else (w, some (.valueError "relwidth must be between 0.0 and 1.0"))

/-- The `Place.relheight` property setter (same validation as `relx`). -/
def relheightSet (w : Widget) (v : ℚ) : Widget × Option PyErr :=
  if 0 ≤ v ∧ v ≤ 1 then ({ w with relheight := v }, none)
  else (w, some (.valueError "relheight must be between 0.0 and 1.0"))

/-- The `_Widget.state` property setter: raises `ValueError` when the
string is shorter than 6 characters, otherwise stores it. -/
def stateSet (w : Widget) (v : String) : Widget × Option PyErr :=
  if v.length < 6 then (w, some (.valueError "Unknown State"))
  else ({ w with state := v }, none)

/-- `_Widget.show()`: sets `_visible` to `True` via `_set_visible_`. -/
def showOp (w : Widget) : Widget :=
  { w with visible := true }

/-- `_Widget.hide()`: sets `_visible` to `False` via `_set_visible_`. -/
def hideOp (w : Widget) : Widget :=
  { w with visible := false }

/-- `_Widget.disable()`: `self.state = "disabled"` (through the validating
property setter) then `self._disabled = True`. -/
def disable (w : Widget) : Widget × Option PyErr :=
  match stateSet w "disabled" with
  | (w1, none) => ({ w1 with disabled := true }, none)
  | (w1, some e) => (w1, some e)

/-- `_Widget.enable()`: `self.show()`, then `self._disabled = False`, then
`self.state = "normal"` through the property setter. -/
def enable (w : Widget) : Widget × Option PyErr :=
  stateSet { showOp w with disabled := false } "normal"

/-- What a call to `_Widget.draw` does: either it paints the background
rectangle itself (only when the widget is visible *and* its class is the
base `_Widget`), or it delegates to the subclass paint callback
`_perform_draw_` — which the `else` branch does regardless of
visibility. -/
inductive DrawEffect where
  | rectPainted (r : Rect)
  | paintCallback
  deriving DecidableEq, Repr

/-- `_Widget.draw`: `if self._visible and self.__class__.__name__ ==
"_Widget"` paint `self._rect.inflate(-20, -20)` directly; in every other
case (including an invisible widget) delegate to `_perform_draw_`. -/
def draw (w : Widget) : DrawEffect :=
  if w.visible = true ∧ w.className = "_Widget" then
    .rectPainted (w.rect.inflate (-20) (-20))
  else
    .paintCallback

/-- `_Widget.update(delta)`: calls the subclass callback
`_perform_update_(delta)` only when `self._visible` is true; the result
records the delta passed to the callback, or `none` when the callback was
not invoked. -/
def update (w : Widget) (delta : ℚ) : Option ℚ :=
  if w.visible = true then some delta else none

/-- `dict.pop(k, default)` on the `kwargs` of `_configure_set_` (each key
is popped at most once, so dropping the removal is sound). -/
def popd (kwargs : List (String × PyVal)) (k : String) (d : PyVal) : PyVal :=
  match kwargs.lookup k with
  | some v => v
  | none => d

/-- `_Widget._configure_set_(**kwargs)`: pops `height`, `width`,
`background`, `foreground`, `cursor`, keeping the current value when the
key is absent; all other keys are silently dropped. -/
def configureSet (w : Widget) (kwargs : List (String × PyVal)) : Widget :=
  { w with
    heightAttr := popd kwargs "height" w.heightAttr
    widthAttr := popd kwargs "width" w.widthAttr
    background := popd kwargs "background" w.background
    foreground := popd kwargs "foreground" w.foreground
    cursor := popd kwargs "cursor" w.cursor }

/-- `_Widget._configure_get_(attribute)`: returns the stored value for the
five recognized keys and Python `None` for anything else. -/
def configureGet (w : Widget) (attr : String) : PyVal :=
  if attr = "height" then w.heightAttr
  else if attr = "width" then w.widthAttr
  else if attr = "background" then w.background
  else if attr = "foreground" then w.foreground
  else if attr = "cursor" then w.cursor
  else .vnone

/-- `_Widget.configure(config=None, **kwargs)`: with a key it returns that
key's current value (leaving the widget untouched); with keyword values it
sets them (returning Python `None`). -/
def configure (w : Widget) (config : Option String) (kwargs : List (String × PyVal)) :
    PyVal × Widget :=
  match config with
  | some a => (configureGet w a, w)
  | none => (.vnone, configureSet w kwargs)

/-- A fresh base widget of requested size 100×100 on an 800×600 parent. -/
def w800 : Widget := initWidget "_Widget" 800 600 100 100

/-- A fresh base widget of requested size 100×100 on a 900×600 parent. -/
def w900 : Widget := initWidget "_Widget" 900 600 100 100

/-- A fresh base widget of requested size 100×100 on a 200×600 parent. -/
def w200 : Widget := initWidget "_Widget" 200 600 100 100

/-- A concrete subclassed widget (`Button`) that has been hidden. -/
def wButtonHidden : Widget := hideOp (initWidget "Button" 800 600 100 100)

/-- The result of `w800.pack(side="bottom")` (all other arguments at their
Python defaults). -/
def packedSideBottom : Widget :=
  pack w800 ⟨none, some 0, some 0, none, none, some false, none, some "bottom", some 0, some 0⟩ []

/-- The result of `w800.pack(padx=5)` (all other arguments at their Python
defaults). -/
def packedPadxArg : Widget :=
  pack w800 ⟨none, some 0, some 0, none, none, some false, none, none, some 5, some 0⟩ []

/-- The result of `w800.pack()` with every argument at its Python default. -/
def packedDefaultArgs : Widget :=
  pack w800 defaultPackArgs []

/-- The result of `w200.place(x=10, relx=0.5)` (all other arguments at
their Python defaults). -/
def placedMixed : Widget :=
  place w200 10 0 none (1 / 2) 0 none 0 0 none none none []

/-- C1: evaluation of the code at the failing input.  The claim says that a
side given to `pack` positions the widget's edge at the parent's
corresponding edge (`bottom` ⇒ `rect.y = H - rect.height`).  On a fresh
100×100 widget with an 800×600 parent, `pack(side="bottom")` instead
leaves `rect.y = 0`, because the body of `pack` never stores its `side`
argument, so `_side` is still `None` and is defaulted to `"top"`;
`H - rect.height` is `500 ≠ 0`. -/
theorem C1_pack_side_argument_dropped :
    packedSideBottom.rect.y = 0 ∧
    w800.masterH - packedSideBottom.rect.height = 500 ∧
    packedSideBottom.rect.y ≠ w800.masterH - packedSideBottom.rect.height := by
  decide

/-- C2: for a parent of size `(W, H)` under shared grid dimensions
`rows × cols`, `grid(row, column, rowspan, columnspan)` with no padding
sets `rect = (column * (W // cols), row * (H // rows),
(W // cols) * columnspan, (H // rows) * rowspan)` with Python floor
division. -/
theorem C2_grid_cell_formula (w : Widget) (rows cols row col rs cs : ℤ)
    (hr : 0 < rows) (hc : 0 < cols) :
    (grid w rows cols (some row) (some col) (some rs) (some cs) (some 0) (some 0)
        none (some 0) (some 0) []).rect =
      ⟨col * Int.fdiv w.masterW cols, row * Int.fdiv w.masterH rows,
        Int.fdiv w.masterW cols * cs, Int.fdiv w.masterH rows * rs⟩ := by
  simp [grid, gridRect]

/-- C2 witness: the two concrete cases of the claim: a 3×3 grid over a
900×600 parent gives cell 300×200, so `grid(row=1, column=2)` yields rect
`(600, 200, 300, 200)` and `grid(row=0, column=0, rowspan=2,
columnspan=3)` yields `(0, 0, 900, 400)`. -/
theorem C2_grid_cell_formula_witness :
    (grid w900 3 3 (some 1) (some 2) (some 1) (some 1) (some 0) (some 0)
        none (some 0) (some 0) []).rect = ⟨600, 200, 300, 200⟩ ∧
    (grid w900 3 3 (some 0) (some 0) (some 2) (some 3) (some 0) (some 0)
        none (some 0) (some 0) []).rect = ⟨0, 0, 900, 400⟩ := by
  have h1 := C2_grid_cell_formula w900 3 3 1 2 1 1 (by decide) (by decide)
  have h2 := C2_grid_cell_formula w900 3 3 0 0 2 3 (by decide) (by decide)
  constructor
  · rw [h1]; decide
  · rw [h2]; decide

/-- C3 counterexample: the claim says `place(x=10, relx=0.5)` on a parent
of width 200 yields `rect.x == 100` (relative overwrites absolute).  The
code yields `rect.x == 10`: the assignment scaling `relx` against the
parent width is commented out, so only `rect.x = self._x` runs. -/
theorem C3_place_relative_not_applied_counterexample :
    placedMixed.rect.x = 10 ∧ placedMixed.rect.x ≠ 100 := by
  decide

/-- C3 (amended): when both an absolute and a relative coordinate are
given to `place`, the absolute one wins: `rect.x = x` and `rect.y = y`
always; `relx`/`rely` are stored in the place options but never applied to
the rectangle. -/
theorem C3_place_absolute_wins (w : Widget) (x y : ℤ) (anchor : Option String)
    (relx rely : ℚ) (in_ : Option Unit) (relwidth relheight : ℚ)
    (width height : Option ℤ) (bordermode : Option String)
    (kwargs : List (String × PyVal)) :
    (place w x y anchor relx rely in_ relwidth relheight width height bordermode kwargs).rect.x = x ∧
    (place w x y anchor relx rely in_ relwidth relheight width height bordermode kwargs).rect.y = y ∧
    (place w x y anchor relx rely in_ relwidth relheight width height bordermode kwargs).relx = relx ∧
    (place w x y anchor relx rely in_ relwidth relheight width height bordermode kwargs).rely = rely :=
  ⟨rfl, rfl, rfl, rfl⟩

/-- C4: evaluation of the code at the failing input.  The claim says
`pack(padx=5)` yields a `rect.width` exactly 10 larger than the same
computation without padding.  On a fresh 100×100 widget the two computed
widths are equal (100, not 110): the body of `pack` never stores its
`padx` argument, so `_padx` is still `None` and no inflation happens. -/
theorem C4_pack_padx_argument_dropped :
    packedPadxArg.rect.width = packedDefaultArgs.rect.width ∧
    packedPadxArg.rect.width = 100 ∧
    packedPadxArg.rect.width ≠ 110 := by
  decide

/-- C5 counterexample: the claim says an unrecognized keyword option such
as `pack(sidee="top")` fails immediately with an invalid-configuration
error.  The call instead succeeds: the `**kwargs` catch-all absorbs the
unknown key and the result is exactly the result of a plain `pack()`. -/
theorem C5_unknown_kwarg_does_not_fail_counterexample :
    callPack w800 defaultPackArgs [("sidee", PyVal.vstr "top")] =
      Except.ok (pack w800 defaultPackArgs []) :=
  rfl

/-- C5 (amended): unrecognized keyword options passed to `pack`, `grid`
or `place` are absorbed by the `**kwargs` catch-all and silently ignored:
the call succeeds and computes exactly what it computes without the
option. -/
theorem C5_unknown_kwargs_silently_ignored (w : Widget) (args : PackArgs)
    (extra : List (String × PyVal)) (gridRows gridCols : ℤ)
    (row column rowspan columnspan ipadx ipady padx pady : Option ℤ)
    (sticky : Option String) (x y : ℤ) (anchor : Option String) (relx rely : ℚ)
    (in_ : Option Unit) (relwidth relheight : ℚ) (width height : Option ℤ)
    (bordermode : Option String) :
    callPack w args extra = Except.ok (pack w args []) ∧
    callGrid w gridRows gridCols row column rowspan columnspan ipadx ipady sticky padx pady extra =
      Except.ok (grid w gridRows gridCols row column rowspan columnspan ipadx ipady sticky padx pady []) ∧
    callPlace w x y anchor relx rely in_ relwidth relheight width height bordermode extra =
      Except.ok (place w x y anchor relx rely in_ relwidth relheight width height bordermode []) :=
  ⟨rfl, rfl, rfl⟩

/-- C6 counterexample: the claim says a hidden widget's `draw()` is a
no-op while its `update()` still runs the update callback.  For a hidden
`Button` (a subclass, so `__class__.__name__ ≠ "_Widget"`), `draw()` does
invoke the paint callback and `update()` does not invoke the update
callback — both halves of the claim fail. -/
theorem C6_hidden_widget_counterexample :
    draw wButtonHidden = DrawEffect.paintCallback ∧
    update wButtonHidden 1 = none := by
  decide

/-- C6 (amended): visibility gates `update`, not `draw`: a widget with
`visible == False` skips its update callback in `update(delta)`, while
`draw()` still invokes the paint callback for every widget whose class is
not the base `_Widget` (only the base class's direct rectangle painting is
conditioned on visibility). -/
theorem C6_visibility_gates_update_not_draw (w : Widget) (delta : ℚ) :
    (w.visible = false → update w delta = none) ∧
    (w.className ≠ "_Widget" → draw w = DrawEffect.paintCallback) := by
  constructor
  · intro h
    simp [update, h]
  · intro h
    simp [draw, h]

/-- C6 witness: the amended theorem applied to the concrete hidden
`Button`. -/
theorem C6_visibility_gates_update_not_draw_witness :
    update wButtonHidden 1 = none ∧ draw wButtonHidden = DrawEffect.paintCallback :=
  ⟨(C6_visibility_gates_update_not_draw wButtonHidden 1).1 rfl,
   (C6_visibility_gates_update_not_draw wButtonHidden 1).2 (by decide)⟩

/-- C7: for every widget and any prior state, `disable()` succeeds and
leaves `state == "disabled"` and `disabled == True`; a subsequent
`enable()` succeeds and leaves `state == "normal"`, `disabled == False`,
and the widget re-shown (`visible == True`). -/
theorem C7_disable_enable_transitions (w : Widget) :
    (disable w).1.state = "disabled" ∧
    (disable w).1.disabled = true ∧
    (disable w).2 = none ∧
    (enable (disable w).1).1.state = "normal" ∧
    (enable (disable w).1).1.disabled = false ∧
    (enable (disable w).1).1.visible = true ∧
    (enable (disable w).1).2 = none :=
  ⟨rfl, rfl, rfl, rfl, rfl, rfl, rfl⟩

/-- C8: for each base-level recognized configuration key (`width`,
`height`, `background`, `foreground`, `cursor`) and every value `v`,
`configure(k=v)` followed by `configure(k)` returns exactly `v`. -/
theorem C8_configure_roundtrip (w : Widget) (v : PyVal) :
    (configure (configure w none [("width", v)]).2 (some "width") []).1 = v ∧
    (configure (configure w none [("height", v)]).2 (some "height") []).1 = v ∧
    (configure (configure w none [("background", v)]).2 (some "background") []).1 = v ∧
    (configure (configure w none [("foreground", v)]).2 (some "foreground") []).1 = v ∧
    (configure (configure w none [("cursor", v)]).2 (some "cursor") []).1 = v :=
  ⟨rfl, rfl, rfl, rfl, rfl⟩

/-- C9: assigning a value outside `[0, 1]` to the `relx`, `rely`,
`relwidth` or `relheight` property raises a `ValueError` at the point of
assignment and leaves the stored option unchanged; a value inside `[0, 1]`
is stored without error. -/
theorem C9_rel_setters_validate (w : Widget) (v : ℚ) :
    (¬ (0 ≤ v ∧ v ≤ 1) →
      relxSet w v = (w, some (PyErr.valueError "relx must be between 0.0 and 1.0")) ∧
      relySet w v = (w, some (PyErr.valueError "rely must be between 0.0 and 1.0")) ∧
      relwidthSet w v = (w, some (PyErr.valueError "relwidth must be between 0.0 and 1.0")) ∧
      relheightSet w v = (w, some (PyErr.valueError "relheight must be between 0.0 and 1.0"))) ∧
    ((0 ≤ v ∧ v ≤ 1) →
      relxSet w v = ({ w with relx := v }, none) ∧
      relySet w v = ({ w with rely := v }, none) ∧
      relwidthSet w v = ({ w with relwidth := v }, none) ∧
      relheightSet w v = ({ w with relheight := v }, none)) := by
  constructor <;> intro h <;>
    simp [relxSet, relySet, relwidthSet, relheightSet, h]

/-- C9 witness: `relx = 1.5` raises and leaves the widget unchanged;
`relx = 0.5` stores the value without error. -/
theorem C9_rel_setters_validate_witness :
    relxSet w800 (3 / 2) = (w800, some (PyErr.valueError "relx must be between 0.0 and 1.0")) ∧
    relxSet w800 (1 / 2) = ({ w800 with relx := 1 / 2 }, none) :=
  ⟨((C9_rel_setters_validate w800 (3 / 2)).1 (by norm_num)).1,
   ((C9_rel_setters_validate w800 (1 / 2)).2 (by norm_num)).1⟩

/-- C10: `place()` and `grid()` write their arguments directly to the
underscore-prefixed fields, bypassing the validating property setters: any
value — including out-of-range ones such as `place(relx=1.5)`,
`grid(row=-1)` or `grid(padx=-3)` — is stored raw and the call raises no
validation error. -/
theorem C10_raw_field_writes_no_validation (w : Widget) (gridRows gridCols : ℤ)
    (row column rowspan columnspan ipadx ipady padx pady : Option ℤ)
    (sticky : Option String) (x y : ℤ) (anchor : Option String) (relx rely : ℚ)
    (in_ : Option Unit) (relwidth relheight : ℚ) (width height : Option ℤ)
    (bordermode : Option String) (extraP extraG : List (String × PyVal)) :
    (place w x y anchor relx rely in_ relwidth relheight width height bordermode extraP).relx = relx ∧
    (place w x y anchor relx rely in_ relwidth relheight width height bordermode extraP).rely = rely ∧
    (grid w gridRows gridCols row column rowspan columnspan ipadx ipady sticky padx pady extraG).row = row ∧
    (grid w gridRows gridCols row column rowspan columnspan ipadx ipady sticky padx pady extraG).padx = padx ∧
    callPlace w x y anchor relx rely in_ relwidth relheight width height bordermode extraP =
      Except.ok (place w x y anchor relx rely in_ relwidth relheight width height bordermode extraP) ∧
    callGrid w gridRows gridCols row column rowspan columnspan ipadx ipady sticky padx pady extraG =
      Except.ok (grid w gridRows gridCols row column rowspan columnspan ipadx ipady sticky padx pady extraG) ∧
    (place w200 0 0 none (3 / 2) 0 none 0 0 none none none []).relx = 3 / 2 ∧
    (grid w900 3 3 (some (-1)) (some 0) (some 1) (some 1) (some 0) (some 0)
        none (some (-3)) (some 0) []).row = some (-1) ∧
    (grid w900 3 3 (some (-1)) (some 0) (some 1) (some 1) (some 0) (some 0)
        none (some (-3)) (some 0) []).padx = some (-3) :=
  ⟨rfl, rfl, rfl, rfl, rfl, rfl, rfl, rfl, rfl⟩

end PygameUI
